import Mathlib

/-!
# Verification of the dualsense-cmd core against its specification

A shallow embedding, in Lean 4, of the DualSense report codec, the
connection state machine, the Madgwick orientation filter, and the
spatial integration engine of the dualsense-cmd repository
(src/dualsense.rs and src/spatial.rs), together with theorems settling
the specification claims about those components.

Modelling conventions:
* Rust `u8` / `u16` / `u32` values are `Nat` with explicit `% 2^w`
  wherever overflow can occur; `i16` decoding produces `Int`.
* Rust `f32` arithmetic in the spatial engine is modelled over `ℚ`
  (exact arithmetic); the Madgwick filter, which needs square roots,
  is modelled over `ℝ` and Mathlib quaternions.
* The external `spatial_core::ComplementaryFilter` collaborator (a
  separate crate, specified in §6 of the spec as a black box) is
  abstracted as function parameters `rot` / `fupd`.
* Fallible Rust functions returning `Result` become `Except`.
-/

set_option maxHeartbeats 1000000

namespace DS

/-! ## Report codec data model (src/dualsense.rs) -/

/-- Report sizes (src/dualsense.rs). -/
def USB_REPORT_SIZE : Nat := 64

/-- Bluetooth report size. -/
def BT_REPORT_SIZE : Nat := 78

/-- USB input report id. -/
def USB_INPUT_REPORT_ID : Nat := 0x01

/-- Bluetooth input report id. -/
def BT_INPUT_REPORT_ID : Nat := 0x31

/-- `DualSenseError` without the transport-level constructors that carry
foreign handles; `invalidReport` keeps its message string. -/
inductive DualSenseError where
  | invalidReport (msg : String)
  | connectionLost
  | timeout
  deriving DecidableEq, Repr

/-- Button state: 19 independent booleans (struct `Buttons`). -/
structure Buttons where
  cross : Bool := false
  circle : Bool := false
  square : Bool := false
  triangle : Bool := false
  dpad_up : Bool := false
  dpad_down : Bool := false
  dpad_left : Bool := false
  dpad_right : Bool := false
  l1 : Bool := false
  r1 : Bool := false
  l2_button : Bool := false
  r2_button : Bool := false
  l3 : Bool := false
  r3 : Bool := false
  options : Bool := false
  create : Bool := false
  ps : Bool := false
  touchpad : Bool := false
  mute : Bool := false
  deriving DecidableEq, Repr

/-- Analog stick state, raw bytes 0-255 with centre 128 (struct `Stick`). -/
structure Stick where
  x : Nat := 128
  y : Nat := 128
  deriving DecidableEq, Repr

/-- Trigger state, raw bytes 0-255 (struct `Triggers`). -/
structure Triggers where
  l2 : Nat := 0
  r2 : Nat := 0
  deriving DecidableEq, Repr

/-- One touchpad finger record (struct `TouchFinger`). -/
structure TouchFinger where
  active : Bool := false
  id : Nat := 0
  x : Nat := 0
  y : Nat := 0
  deriving DecidableEq, Repr

/-- Touchpad state, two fingers (struct `Touchpad`). -/
structure Touchpad where
  finger1 : TouchFinger := {}
  finger2 : TouchFinger := {}
  deriving DecidableEq, Repr

/-- Raw gyroscope sample, three signed 16-bit components (struct `Gyroscope`). -/
structure Gyroscope where
  x : Int := 0
  y : Int := 0
  z : Int := 0
  deriving DecidableEq, Repr

/-- Raw accelerometer sample, three signed 16-bit components
(struct `Accelerometer`). -/
structure Accelerometer where
  x : Int := 0
  y : Int := 0
  z : Int := 0
  deriving DecidableEq, Repr

/-- Battery status (struct `Battery`): 4-bit level plus two flags. -/
structure Battery where
  level : Nat := 0
  charging : Bool := false
  fully_charged : Bool := false
  deriving DecidableEq, Repr

/-- `Battery::percentage`: `(self.level * 10).min(100)` on `u8`; the `u8`
multiplication wraps modulo 256 (release-profile Rust semantics). -/
def Battery.percentage (b : Battery) : Nat :=
  Nat.min (b.level * 10 % 256) 100

/-- `ControllerState`, parametric in the type `Q` of the derived
orientation quaternion (the codec never touches that field; the
connection state machine stores the Madgwick filter output in it). -/
structure ControllerState (Q : Type) where
  buttons : Buttons := {}
  left_stick : Stick := {}
  right_stick : Stick := {}
  triggers : Triggers := {}
  touchpad : Touchpad := {}
  gyroscope : Gyroscope := {}
  accelerometer : Accelerometer := {}
  battery : Battery := {}
  timestamp : Nat := 0
  orientation : Q
  deriving DecidableEq, Repr

/-! ## Adaptive trigger effects -/

/-- Adaptive trigger effect mode (enum `TriggerEffectMode`). -/
inductive TriggerEffectMode where
  | Off
  | Continuous
  | SectionResistance
  | Vibration
  | CombinedRV
  | Calibration
  deriving DecidableEq, Repr

/-- Enum discriminant of `TriggerEffectMode` (its `as u8` value). -/
def TriggerEffectMode.toU8 : TriggerEffectMode → Nat
  | .Off => 0x00
  | .Continuous => 0x01
  | .SectionResistance => 0x02
  | .Vibration => 0x06
  | .CombinedRV => 0x26
  | .Calibration => 0xFC

/-- `TriggerEffectMode::from_u8`: decode a byte back to a mode, with every
unknown value mapping to `Off`. -/
def TriggerEffectMode.from_u8 (v : Nat) : TriggerEffectMode :=
  match v with
  | 0x00 => .Off
  | 0x01 => .Continuous
  | 0x02 => .SectionResistance
  | 0x06 => .Vibration
  | 0x26 => .CombinedRV
  | 0xFC => .Calibration
  | _ => .Off

/-- Adaptive trigger effect configuration (struct `TriggerEffect`). -/
structure TriggerEffect where
  mode : TriggerEffectMode
  start_position : Nat
  end_position : Nat
  force : Nat
  frequency : Nat
  deriving DecidableEq, Repr

/-- `TriggerEffect::default()`. -/
def TriggerEffect.default : TriggerEffect :=
  { mode := .Off, start_position := 0, end_position := 255, force := 0,
    frequency := 0 }

/-- `TriggerEffect::continuous(force)`. -/
def TriggerEffect.continuous (force : Nat) : TriggerEffect :=
  { mode := .Continuous, start_position := 0, end_position := 255,
    force := force, frequency := 0 }

/-- `TriggerEffect::to_bytes`: the 11-byte effect block.  The Rust code
starts from a zero array, writes the mode tag at byte 0, then fills
mode-dependent positions; each branch below lists the resulting array. -/
def TriggerEffect.to_bytes (e : TriggerEffect) : List Nat :=
  match e.mode with
  | .Off =>
      [0x00, 0, 0, 0, 0, 0, 0, 0, 0, 0, 0]
  | .Continuous =>
      [0x01, e.start_position, e.force, 0, 0, 0, 0, 0, 0, 0, 0]
  | .SectionResistance =>
      [0x02, e.start_position, e.end_position, e.force, 0, 0, 0, 0, 0, 0, 0]
  | .Vibration =>
      [0x06, e.start_position, e.force, e.frequency, 0, 0, 0, 0, 0, 0, 0]
  | .CombinedRV =>
      [0x26, e.start_position, e.end_position, e.force, e.force / 2,
       e.force / 2, e.force, 0, 0, e.frequency, 0]
  | .Calibration =>
      [0xFC, 0, 0, 0, 0, 0, 0, 0, 0, 0, 0]

/-! ## Input report parsing -/

/-- `i16::from_le_bytes([lo, hi])` for byte values `lo hi : Nat`. -/
def i16_from_le (lo hi : Nat) : Int :=
  let v : Nat := lo + 256 * hi
  if v < 32768 then (v : Int) else (v : Int) - 65536

/-- Byte `i` of a byte list (Rust slice indexing; all uses in the parser
are guarded in bounds by the length checks of the callers). -/
def byte (l : List Nat) (i : Nat) : Nat := l.getD i 0

/-- `DualSense::parse_touch_point`: 4-byte touch record decode. -/
def parse_touch_point (d : List Nat) : TouchFinger :=
  { active := (byte d 0 &&& 0x80) == 0
    id := byte d 0 &&& 0x7F
    x := ((byte d 2 &&& 0x0F) <<< 8) ||| byte d 1
    y := (byte d 3 <<< 4) ||| ((byte d 2 &&& 0xF0) >>> 4) }

/-- `DualSense::parse_common_input`: shared field decode for both
transports, reading from `data[offset..]`.  It always succeeds (`Ok(())`
in Rust), so it is modelled as a pure state update. -/
def parse_common_input {Q : Type} (st : ControllerState Q) (data : List Nat)
    (offset : Nat) : ControllerState Q :=
  let d := data.drop offset
  let btns1 := byte d 7
  let btns2 := byte d 8
  let btns3 := byte d 9
  let dpad := btns1 &&& 0x0F
  { st with
    left_stick := { x := byte d 0, y := byte d 1 }
    right_stick := { x := byte d 2, y := byte d 3 }
    triggers := { l2 := byte d 4, r2 := byte d 5 }
    timestamp := byte d 6
    buttons :=
      { dpad_up := dpad == 0 || dpad == 1 || dpad == 7
        dpad_right := dpad == 1 || dpad == 2 || dpad == 3
        dpad_down := dpad == 3 || dpad == 4 || dpad == 5
        dpad_left := dpad == 5 || dpad == 6 || dpad == 7
        square := (btns1 &&& 0x10) != 0
        cross := (btns1 &&& 0x20) != 0
        circle := (btns1 &&& 0x40) != 0
        triangle := (btns1 &&& 0x80) != 0
        l1 := (btns2 &&& 0x01) != 0
        r1 := (btns2 &&& 0x02) != 0
        l2_button := (btns2 &&& 0x04) != 0
        r2_button := (btns2 &&& 0x08) != 0
        create := (btns2 &&& 0x10) != 0
        options := (btns2 &&& 0x20) != 0
        l3 := (btns2 &&& 0x40) != 0
        r3 := (btns2 &&& 0x80) != 0
        ps := (btns3 &&& 0x01) != 0
        touchpad := (btns3 &&& 0x02) != 0
        mute := (btns3 &&& 0x04) != 0 }
    gyroscope :=
      { x := i16_from_le (byte d 15) (byte d 16)
        y := i16_from_le (byte d 17) (byte d 18)
        z := i16_from_le (byte d 19) (byte d 20) }
    accelerometer :=
      { x := i16_from_le (byte d 21) (byte d 22)
        y := i16_from_le (byte d 23) (byte d 24)
        z := i16_from_le (byte d 25) (byte d 26) }
    touchpad :=
      if d.length > 40 then
        { finger1 := parse_touch_point ((d.drop 32).take 4)
          finger2 := parse_touch_point ((d.drop 36).take 4) }
      else st.touchpad
    battery :=
      if d.length > 52 then
        { level := byte d 52 &&& 0x0F
          charging := (byte d 52 &&& 0x10) != 0
          fully_charged := (byte d 52 &&& 0x20) != 0 }
      else st.battery }

/-- `DualSense::parse_usb_report`: payload (with report id already
stripped) must be at least 63 bytes, else `InvalidReport`. -/
def parse_usb_report {Q : Type} (st : ControllerState Q) (data : List Nat) :
    Except DualSenseError (ControllerState Q) :=
  if data.length < 63 then
    .error (.invalidReport
      ("USB report too short: " ++ toString data.length ++ " bytes"))
  else
    .ok (parse_common_input st data 0)

/-- `DualSense::parse_bt_report`: payload must be at least 77 bytes, else
`InvalidReport`; the shared parser then starts one byte later (feature
flag byte). -/
def parse_bt_report {Q : Type} (st : ControllerState Q) (data : List Nat) :
    Except DualSenseError (ControllerState Q) :=
  if data.length < 77 then
    .error (.invalidReport
      ("BT report too short: " ++ toString data.length ++ " bytes"))
  else
    .ok (parse_common_input st data 1)

/-! ## Output state and Bluetooth output framing -/

/-- Player LED configuration (struct `PlayerLeds`). -/
structure PlayerLeds where
  led1 : Bool := false
  led2 : Bool := false
  led3 : Bool := false
  led4 : Bool := false
  led5 : Bool := false
  deriving DecidableEq, Repr

/-- `PlayerLeds::to_byte`. -/
def PlayerLeds.to_byte (p : PlayerLeds) : Nat :=
  (if p.led1 then 0x01 else 0) |||
  (if p.led2 then 0x02 else 0) |||
  (if p.led3 then 0x04 else 0) |||
  (if p.led4 then 0x08 else 0) |||
  (if p.led5 then 0x10 else 0)

/-- Mute LED tri-state (enum `MuteLedState`). -/
inductive MuteLedState where
  | Off
  | On
  | Breathing
  deriving DecidableEq, Repr

/-- `MuteLedState::to_byte`. -/
def MuteLedState.to_byte : MuteLedState → Nat
  | .Off => 0
  | .On => 1
  | .Breathing => 2

/-- Complete controller output state (struct `OutputState`). -/
structure OutputState where
  led_color : Nat × Nat × Nat
  rumble : Nat × Nat
  l2_effect : TriggerEffect
  r2_effect : TriggerEffect
  player_leds : PlayerLeds
  mute_led : MuteLedState
  lightbar_enabled : Bool
  bt_seq : Nat
  deriving DecidableEq, Repr

/-- `OutputState::default()`. -/
def OutputState.default : OutputState :=
  { led_color := (255, 255, 255), rumble := (0, 0),
    l2_effect := TriggerEffect.default, r2_effect := TriggerEffect.default,
    player_leds := {}, mute_led := .Off, lightbar_enabled := true,
    bt_seq := 0 }

/-- CRC-32 polynomial in bit-reversed form, as used by the `crc32fast`
crate (ISO-HDLC / IEEE 802.3 CRC-32). -/
def crc32_poly : Nat := 0xEDB88320

/-- One bit step of the reflected CRC-32: shift right, conditionally
folding in the polynomial. -/
def crc32_bit (c : Nat) : Nat :=
  if c % 2 = 1 then (c / 2) ^^^ crc32_poly else c / 2

/-- Fold one byte into the running CRC-32 state. -/
def crc32_feed (c b : Nat) : Nat := crc32_bit^[8] (c ^^^ b)

/-- CRC-32 of a byte list: initial state `0xFFFFFFFF`, final complement —
the value `crc32fast::Hasher::new()` + `update` + `finalize` produces. -/
def crc32 (data : List Nat) : Nat :=
  (data.foldl crc32_feed 0xFFFFFFFF) ^^^ 0xFFFFFFFF

/-- `DualSense::compute_bt_crc32`: CRC-32 with the two seed bytes
`[0xA2, 0x31]` hashed before the frame body. -/
def compute_bt_crc32 (data : List Nat) : Nat :=
  crc32 (0xA2 :: 0x31 :: data)

/-- `u32::to_le_bytes`. -/
def u32_le (v : Nat) : List Nat :=
  [v % 256, v / 256 % 256, v / 65536 % 256, v / 16777216 % 256]

/-- First 74 bytes of the Bluetooth output report built by the
`ConnectionType::Bluetooth` arm of `DualSense::send_output_report`:
a zero-initialised frame with the documented bytes written at their
offsets (0: report id, 1: sequence byte, 2-3: valid flags, 4-5: rumble,
10: mute LED, 12-22: R2 effect, 23-33: L2 effect, 40: valid_flag2,
42: lightbar setup, 45: player LEDs, 46-48: RGB). -/
def bt_output_body (o : OutputState) : List Nat :=
  [0x31,
   ((o.bt_seq <<< 4) % 256) ||| 0x02,
   0x03,
   0x15,
   o.rumble.2,
   o.rumble.1,
   0, 0, 0, 0,
   o.mute_led.to_byte,
   0]
  ++ o.r2_effect.to_bytes
  ++ o.l2_effect.to_bytes
  ++ [0, 0, 0, 0, 0, 0,
      0x02,
      0,
      if o.lightbar_enabled then 0x02 else 0x01,
      0, 0,
      o.player_leds.to_byte,
      o.led_color.1,
      o.led_color.2.1,
      o.led_color.2.2]
  ++ List.replicate 25 0

/-- The Bluetooth arm of `DualSense::send_output_report`: produce the
78-byte frame written to the device (body plus little-endian CRC-32 over
the first 74 bytes, seeded with `[0xA2, 0x31]`) and the mutated output
state (sequence counter incremented and masked to 4 bits; `u8` addition
wraps modulo 256 before the mask). -/
def send_output_report_bt (o : OutputState) : List Nat × OutputState :=
  let body := bt_output_body o
  let crc := compute_bt_crc32 body
  (body ++ u32_le crc,
   { o with bt_seq := ((o.bt_seq + 1) % 256) &&& 0x0F })

/-! ## Connection state machine (poll) -/

/-- Connection transport (enum `ConnectionType`). -/
inductive ConnectionType where
  | Usb
  | Bluetooth
  deriving DecidableEq, Repr

/-- Vector of three rationals, modelling `[f32; 3]` / `Vector3<f32>`
under exact arithmetic. -/
structure V3 where
  x : ℚ
  y : ℚ
  z : ℚ
  deriving DecidableEq, Repr

/-- The zero vector. -/
def V3.zero : V3 := ⟨0, 0, 0⟩

/-- `Gyroscope::to_rad_per_sec`: scale by `1/1024`. -/
def Gyroscope.to_rad_per_sec (g : Gyroscope) : V3 :=
  ⟨(g.x : ℚ) / 1024, (g.y : ℚ) / 1024, (g.z : ℚ) / 1024⟩

/-- `Accelerometer::to_g`: scale by `1/8192`. -/
def Accelerometer.to_g (a : Accelerometer) : V3 :=
  ⟨(a.x : ℚ) / 8192, (a.y : ℚ) / 8192, (a.z : ℚ) / 8192⟩

/-- The mutable fields of struct `DualSense` relevant to `poll`
(device handle, shutdown flag and output mutex omitted; the Madgwick
filter is represented by its quaternion of abstract type `Q`). -/
structure DualSenseSt (Q : Type) where
  connection_type : ConnectionType
  state : ControllerState Q
  prev_state : ControllerState Q
  filter_q : Q
  deriving DecidableEq, Repr

/-- `DualSense::poll`, as a function of the bytes the transport read
(`buf`, `bytes_read`), the wall-clock delta `dt` since the previous
poll, and the orientation-filter step `fupd` (`MadgwickFilter::update`,
abstracted; `C8` models it concretely over `ℝ`).  A zero-byte read is a
`Timeout`; a frame whose id or length does not match is skipped
(trace-only branch); the fusion update runs whenever `0 < dt < 1`. -/
def poll {Q : Type} (fupd : Q → V3 → V3 → ℚ → Q) (ds : DualSenseSt Q)
    (buf : List Nat) (bytes_read : Nat) (dt : ℚ) :
    Except DualSenseError (DualSenseSt Q) :=
  if bytes_read = 0 then .error .timeout
  else
    let parsed : Except DualSenseError (ControllerState Q) :=
      match ds.connection_type with
      | .Usb =>
          if USB_REPORT_SIZE ≤ bytes_read ∧ byte buf 0 = USB_INPUT_REPORT_ID
          then parse_usb_report ds.state (buf.drop 1)
          else .ok ds.state
      | .Bluetooth =>
          if BT_REPORT_SIZE ≤ bytes_read ∧ byte buf 0 = BT_INPUT_REPORT_ID
          then parse_bt_report ds.state (buf.drop 1)
          else .ok ds.state
    match parsed with
    | .error e => .error e
    | .ok st1 =>
        if 0 < dt ∧ dt < 1 then
          let gyro := st1.gyroscope.to_rad_per_sec
          let accel := st1.accelerometer.to_g
          let newq := fupd ds.filter_q gyro accel dt
          .ok { ds with
                state := { st1 with orientation := newq }
                prev_state := ds.state
                filter_q := newq }
        else
          .ok { ds with state := st1, prev_state := ds.state }

/-! ## Spatial integration engine (src/spatial.rs) over exact rationals -/

/-- `f32::signum` (for non-NaN, non-negative-zero inputs, the only ones
arising over `ℚ`): `-1` below zero, `1` otherwise. -/
def rsignum (v : ℚ) : ℚ := if v < 0 then -1 else 1

/-- `f32::clamp(lo, hi)`. -/
def rclamp (v lo hi : ℚ) : ℚ := max lo (min v hi)

/-- `Stick::normalized`: `(raw - 128) / 127`, clamped to `[-1, 1]`. -/
def Stick.normalized (s : Stick) : ℚ × ℚ :=
  (rclamp (((s.x : ℚ) - 128) / 127) (-1) 1,
   rclamp (((s.y : ℚ) - 128) / 127) (-1) 1)

/-- `Triggers::normalized`: `raw / 255`. -/
def Triggers.normalized (t : Triggers) : ℚ × ℚ :=
  ((t.l2 : ℚ) / 255, (t.r2 : ℚ) / 255)

/-- `apply_deadzone` (src/spatial.rs): zero inside the band, otherwise
rescaled so the deadzone edge maps to 0 and full deflection to 1,
clamped and sign-preserving. -/
def apply_deadzone (value deadzone : ℚ) : ℚ :=
  if |value| < deadzone then 0
  else rsignum value * rclamp ((|value| - deadzone) / (1 - deadzone)) 0 1

/-- Integration modes (enum `SpatialMode`). -/
inductive SpatialMode where
  | Standard
  | Heading
  | Accelerometer
  | AxiDraw
  | ThreeD
  deriving DecidableEq, Repr

/-- Velocity curve selector (enum `VelocityCurve`). -/
inductive VelocityCurve where
  | Linear
  | Quadratic
  | Cubic
  deriving DecidableEq, Repr

/-- `VelocityCurve::apply`: sign-preserving power curve. -/
def VelocityCurve.apply (c : VelocityCurve) (input : ℚ) : ℚ :=
  let sign := rsignum input
  let magnitude := |input|
  let curved :=
    match c with
    | .Linear => magnitude
    | .Quadratic => magnitude * magnitude
    | .Cubic => magnitude * magnitude * magnitude
  sign * curved

/-- Physics configuration (struct `IntegrationConfig`). -/
structure IntegrationConfig where
  velocity_curve : VelocityCurve
  max_linear_speed : ℚ
  max_angular_speed : ℚ
  linear_damping : ℚ
  angular_damping : ℚ
  smoothing_alpha : ℚ
  gyro_weight : ℚ
  deadzone : ℚ
  deriving DecidableEq, Repr

/-- The black-box orientation-fusion collaborator owned by the spatial
engine (`spatial_core::ComplementaryFilter` and its quaternion type,
external to this repository per spec §6): a filter step, a
vector-rotation by the current quaternion, and the identity quaternion. -/
structure FilterOps (Q : Type) where
  update : Q → V3 → V3 → ℚ → Q
  rotate : Q → V3 → V3
  identity : Q

/-- Spatial engine state (struct `SpatialState`); the filter instance is
represented by its orientation quaternion of abstract type `Q`. -/
structure SpatialState (Q : Type) where
  mode : SpatialMode
  position : V3
  velocity : V3
  linear_accel : V3
  angular_velocity : V3
  smoothed_velocity : V3
  orientation : Q
  config : IntegrationConfig
  axidraw_force_type : Nat
  deriving DecidableEq, Repr

/-- `SpatialState::reset`: zero all dynamic state, identity orientation. -/
def SpatialState.reset {Q : Type} (ops : FilterOps Q) (s : SpatialState Q) :
    SpatialState Q :=
  { s with
    position := V3.zero
    velocity := V3.zero
    linear_accel := V3.zero
    angular_velocity := V3.zero
    smoothed_velocity := V3.zero
    orientation := ops.identity }

/-- `SpatialState::set_mode`: select the mode and zero the velocity. -/
def SpatialState.set_mode {Q : Type} (s : SpatialState Q) (mode : SpatialMode) :
    SpatialState Q :=
  { s with mode := mode, velocity := V3.zero }

/-- Damping plus small-value snap-to-zero applied to one velocity
component inside `update_velocity_and_position`. -/
def damp_snap (damping v : ℚ) : ℚ :=
  let w := v * damping
  if |w| < 1/10 then 0 else w

/-- `SpatialState::update_velocity_and_position`: exponential smoothing
toward the target, damping and snap-to-zero only when no component of
the unsmoothed target is significant, then Euler position integration. -/
def SpatialState.update_velocity_and_position {Q : Type} (s : SpatialState Q)
    (target_vel : V3) (dt : ℚ) : SpatialState Q :=
  let alpha := s.config.smoothing_alpha
  let v1 : V3 :=
    ⟨s.velocity.x * (1 - alpha) + target_vel.x * alpha,
     s.velocity.y * (1 - alpha) + target_vel.y * alpha,
     s.velocity.z * (1 - alpha) + target_vel.z * alpha⟩
  let has_input :=
    1/10 < |target_vel.x| ∨ 1/10 < |target_vel.y| ∨ 1/10 < |target_vel.z|
  let v2 : V3 :=
    if has_input then v1
    else
      ⟨damp_snap s.config.linear_damping v1.x,
       damp_snap s.config.linear_damping v1.y,
       damp_snap s.config.linear_damping v1.z⟩
  { s with
    velocity := v2
    position :=
      ⟨s.position.x + v2.x * dt, s.position.y + v2.y * dt,
       s.position.z + v2.z * dt⟩ }

/-- The absolute accelerometer deadzone of the `Accelerometer` mode,
applied to one world-frame acceleration component. -/
def accel_deadzone_comp (dz a : ℚ) : ℚ :=
  if |a| < dz then 0 else a - rsignum a * dz

/-- One velocity/position step of the `Accelerometer` mode for one
component: integrate acceleration, apply the fixed `0.98` decay and the
small-velocity snap-to-zero. -/
def accel_vel_step (v a dt : ℚ) : ℚ :=
  let w := (v + a * dt) * (98/100)
  if |w| < 5 then 0 else w

/-- `SpatialState::integrate`: advance the spatial state by `dt` given a
controller state, dispatching on the mode.  `ops` is the external
complementary-filter collaborator. -/
def SpatialState.integrate {Q Q2 : Type} (ops : FilterOps Q)
    (s0 : SpatialState Q) (state : ControllerState Q2) (dt : ℚ) :
    SpatialState Q :=
  let gyro := state.gyroscope.to_rad_per_sec
  let accel := state.accelerometer.to_g
  let gx := if |gyro.x| < 5/1000 then 0 else gyro.x
  let gy := if |gyro.y| < 5/1000 then 0 else gyro.y
  let gz := if |gyro.z| < 5/1000 then 0 else gyro.z
  let s1 : SpatialState Q :=
    { s0 with
      angular_velocity := ⟨gx, gy, gz⟩
      linear_accel := ⟨accel.x, accel.y, accel.z⟩
      orientation :=
        ops.update s0.orientation ⟨gx, gy, gz⟩ ⟨accel.x, accel.y, accel.z⟩ dt }
  let s2 := if state.buttons.options then s1.reset ops else s1
  let s3 :=
    match s2.mode with
    | .Standard =>
        let lx := apply_deadzone state.left_stick.normalized.1 s2.config.deadzone
        let ly := apply_deadzone state.left_stick.normalized.2 s2.config.deadzone
        let l2 := apply_deadzone state.triggers.normalized.1 s2.config.deadzone
        let r2 := apply_deadzone state.triggers.normalized.2 s2.config.deadzone
        let target_vel : V3 :=
          ⟨lx * s2.config.max_linear_speed,
           ly * s2.config.max_linear_speed,
           (r2 - l2) * s2.config.max_linear_speed⟩
        s2.update_velocity_and_position target_vel dt
    | .Heading =>
        let l2 := apply_deadzone state.triggers.normalized.1 s2.config.deadzone
        let r2 := apply_deadzone state.triggers.normalized.2 s2.config.deadzone
        let forward := ops.rotate s2.orientation ⟨0, 1, 0⟩
        let speed := (r2 - l2) * s2.config.max_linear_speed
        let target_vel : V3 :=
          ⟨forward.x * speed, forward.y * speed, forward.z * speed⟩
        s2.update_velocity_and_position target_vel dt
    | .Accelerometer =>
        let g_to_mms2 : ℚ := 980665/100
        let accel_world := ops.rotate s2.orientation s2.linear_accel
        let ta : V3 :=
          ⟨accel_world.x * g_to_mms2,
           accel_world.y * g_to_mms2,
           (accel_world.z - 1) * g_to_mms2⟩
        let adz := 8/100 * g_to_mms2
        let ta : V3 :=
          ⟨accel_deadzone_comp adz ta.x, accel_deadzone_comp adz ta.y,
           accel_deadzone_comp adz ta.z⟩
        let v : V3 :=
          ⟨accel_vel_step s2.velocity.x ta.x dt,
           accel_vel_step s2.velocity.y ta.y dt,
           accel_vel_step s2.velocity.z ta.z dt⟩
        { s2 with
          velocity := v
          position :=
            ⟨s2.position.x + v.x * dt, s2.position.y + v.y * dt,
             s2.position.z + v.z * dt⟩ }
    | .AxiDraw =>
        let rx := apply_deadzone state.right_stick.normalized.1 s2.config.deadzone
        let ry := apply_deadzone state.right_stick.normalized.2 s2.config.deadzone
        let lx := apply_deadzone state.left_stick.normalized.1 s2.config.deadzone
        let ly := apply_deadzone state.left_stick.normalized.2 s2.config.deadzone
        let force_weight : ℚ := 1/2
        let combined_x := rx + lx * force_weight
        let combined_y := ry + ly * force_weight
        let l2 := apply_deadzone state.triggers.normalized.1 s2.config.deadzone
        let r2 := apply_deadzone state.triggers.normalized.2 s2.config.deadzone
        let z_vel := (r2 * (1/2) - l2 * 2) * s2.config.max_linear_speed
        let target_vel : V3 :=
          ⟨combined_x * s2.config.max_linear_speed,
           combined_y * s2.config.max_linear_speed,
           z_vel⟩
        let f0 := s2.axidraw_force_type
        let f1 := if state.buttons.dpad_up then 1 else f0
        let f2 := if state.buttons.dpad_down then 2 else f1
        let f3 := if state.buttons.dpad_left then 3 else f2
        let f4 := if state.buttons.dpad_right then 4 else f3
        ({ s2 with axidraw_force_type := f4 }).update_velocity_and_position
          target_vel dt
    | .ThreeD =>
        let lx := apply_deadzone state.left_stick.normalized.1 s2.config.deadzone
        let ly := apply_deadzone state.left_stick.normalized.2 s2.config.deadzone
        let l2 := apply_deadzone state.triggers.normalized.1 s2.config.deadzone
        let r2 := apply_deadzone state.triggers.normalized.2 s2.config.deadzone
        let forward := ops.rotate s2.orientation ⟨0, 1, 0⟩
        let right := ops.rotate s2.orientation ⟨1, 0, 0⟩
        let move_speed := s2.config.max_linear_speed
        let target_vel : V3 :=
          ⟨(right.x * lx + forward.x * ly) * move_speed,
           (right.y * lx + forward.y * ly) * move_speed,
           (r2 - l2) * move_speed + (right.z * lx + forward.z * ly) * move_speed⟩
        s2.update_velocity_and_position target_vel dt
  { s3 with
    smoothed_velocity :=
      ⟨s3.smoothed_velocity.x * (4/5) + s3.velocity.x * (1/5),
       s3.smoothed_velocity.y * (4/5) + s3.velocity.y * (1/5),
       s3.smoothed_velocity.z * (4/5) + s3.velocity.z * (1/5)⟩ }

/-! ## Madgwick AHRS filter (struct `MadgwickFilter`) over `ℝ`

`f32` arithmetic is idealised as exact real arithmetic; `nalgebra`
quaternions become Mathlib quaternions (addition, scalar multiplication
and the anonymous constructor are all componentwise, and quaternion
multiplication agrees with `nalgebra`'s Hamilton product, so each
definition below matches the corresponding component formulas of the
source). -/

/-- `UnitQuaternion::from_quaternion`: divide by the Euclidean norm. -/
noncomputable def qnormalize (v : Quaternion ℝ) : Quaternion ℝ := ‖v‖⁻¹ • v

/-- The gyro vector as a pure quaternion (the `gyro_quat` of the
source). -/
noncomputable def gyro_quat (g : ℝ × ℝ × ℝ) : Quaternion ℝ :=
  ⟨0, g.1, g.2.1, g.2.2⟩

/-- The pure gyroscopic quaternion derivative
`q.quaternion() * gyro_quat * 0.5` of `MadgwickFilter::update`. -/
noncomputable def madgwick_qdot (q : Quaternion ℝ) (g : ℝ × ℝ × ℝ) : Quaternion ℝ :=
  (1/2 : ℝ) • (q * ⟨0, g.1, g.2.1, g.2.2⟩)

/-- The objective-function gradient `J^T f` of `MadgwickFilter::update`
(variables `grad_w .. grad_z` in the source), assembled as a quaternion. -/
noncomputable def madgwick_grad (q : Quaternion ℝ) (ax ay az : ℝ) : Quaternion ℝ :=
  let f1 := 2 * (q.imI * q.imK - q.re * q.imJ) - ax
  let f2 := 2 * (q.re * q.imI + q.imJ * q.imK) - ay
  let f3 := 2 * (1/2 - q.imI * q.imI - q.imJ * q.imJ) - az
  let j11 := -2 * q.imJ
  let j12 := 2 * q.imK
  let j13 := -2 * q.re
  let j14 := 2 * q.imI
  let j21 := 2 * q.imI
  let j22 := 2 * q.re
  let j23 := 2 * q.imK
  let j24 := 2 * q.imJ
  let j31 := (0 : ℝ)
  let j32 := -4 * q.imI
  let j33 := -4 * q.imJ
  let j34 := (0 : ℝ)
  ⟨j11 * f1 + j21 * f2 + j31 * f3,
   j12 * f1 + j22 * f2 + j32 * f3,
   j13 * f1 + j23 * f2 + j33 * f3,
   j14 * f1 + j24 * f2 + j34 * f3⟩

/-- The normalised gradient (zero when its norm is zero). -/
noncomputable def madgwick_gradhat (q : Quaternion ℝ) (ax ay az : ℝ) : Quaternion ℝ :=
  let gr := madgwick_grad q ax ay az
  let gn := Real.sqrt (gr.re ^ 2 + gr.imI ^ 2 + gr.imJ ^ 2 + gr.imK ^ 2)
  if 0 < gn then gn⁻¹ • gr else 0

/-- `MadgwickFilter::update`: one fusion step.  When the accelerometer
magnitude is below `0.01` the correction is skipped (pure gyroscopic
integration); otherwise the normalised gradient is blended in with gain
`beta`.  Either way the result is renormalised. -/
noncomputable def madgwick_update (beta : ℝ) (q : Quaternion ℝ) (g a : ℝ × ℝ × ℝ)
    (dt : ℝ) : Quaternion ℝ :=
  let anorm := Real.sqrt (a.1 ^ 2 + a.2.1 ^ 2 + a.2.2 ^ 2)
  if anorm < 1/100 then
    qnormalize (q + dt • madgwick_qdot q g)
  else
    let ax := a.1 / anorm
    let ay := a.2.1 / anorm
    let az := a.2.2 / anorm
    qnormalize
      (q + dt • madgwick_qdot q g - (beta * dt) • madgwick_gradhat q ax ay az)

/-- `n` Madgwick steps with constant inputs, starting from the identity
quaternion (`MadgwickFilter::new` initialises `q` to the identity). -/
noncomputable def madgwick_iterate (beta : ℝ) (g a : ℝ × ℝ × ℝ) (dt : ℝ) :
    ℕ → Quaternion ℝ
  | 0 => 1
  | n + 1 => madgwick_update beta (madgwick_iterate beta g a dt n) g a dt

/-! ## Concrete fixtures used by witnesses -/

/-- A trivial complementary-filter collaborator over the one-point
quaternion type (identity update and rotation). -/
def trivial_filter_ops : FilterOps Unit :=
  { update := fun q _ _ _ => q, rotate := fun _ v => v, identity := () }

/-- `IntegrationConfig::default()` with its `f32` literals read as exact
rationals. -/
def default_integration_config : IntegrationConfig :=
  { velocity_curve := .Linear, max_linear_speed := 200,
    max_angular_speed := 6, linear_damping := 92/100,
    angular_damping := 96/100, smoothing_alpha := 15/100,
    gyro_weight := 92/100, deadzone := 12/100 }

/-- A Standard-mode spatial state with a nonzero initial velocity, used
to exercise the zero-input decay. -/
def sample_spatial_state : SpatialState Unit :=
  { mode := .Standard, position := V3.zero, velocity := ⟨5, 0, 0⟩,
    linear_accel := V3.zero, angular_velocity := V3.zero,
    smoothed_velocity := V3.zero, orientation := (),
    config := default_integration_config, axidraw_force_type := 0 }

/-- The all-default controller state: sticks centred at 128, triggers
released, no buttons held. -/
def idle_controller_state : ControllerState Unit := { orientation := () }

/-! ## Claim C4: battery percentage -/

/-- C4, counterexample: the claim asserts `percentage = min(level*10, 100)`
for every 8-bit level, but the `u8` multiplication in
`Battery::percentage` wraps modulo 256, so at level 26 the code yields
`min(260 % 256, 100) = 4` while the claimed formula yields 100. -/
theorem C4_percentage_counterexample :
    Battery.percentage { level := 26, charging := false, fully_charged := false } = 4 ∧
    Battery.percentage { level := 26, charging := false, fully_charged := false }
      ≠ Nat.min (26 * 10) 100 := by
  constructor
  · rfl
  · decide

/-- C4 (amended): for every battery level at most 25 — in particular the
whole 0-15 range the parser can produce — `Battery::percentage` equals
`min(level*10, 100)`; level 5 yields 50 and the out-of-spec level 11
clamps to 100. -/
theorem C4_battery_percentage (level : Nat) (h : level ≤ 25) (c f : Bool) :
    Battery.percentage { level := level, charging := c, fully_charged := f }
      = Nat.min (level * 10) 100 ∧
    Battery.percentage { level := 5, charging := false, fully_charged := false } = 50 ∧
    Battery.percentage { level := 11, charging := false, fully_charged := false } = 100 := by
  refine ⟨?_, by decide, by decide⟩
  have hlt : level * 10 < 256 := by omega
  simp [Battery.percentage, Nat.mod_eq_of_lt hlt]

/-- C4, witness: the amended theorem applied at level 7. -/
theorem C4_battery_percentage_witness :
    Battery.percentage { level := 7, charging := true, fully_charged := false }
      = Nat.min (7 * 10) 100 ∧
    Battery.percentage { level := 5, charging := false, fully_charged := false } = 50 ∧
    Battery.percentage { level := 11, charging := false, fully_charged := false } = 100 :=
  C4_battery_percentage 7 (by decide) true false

/-! ## Claim C6: trigger effect round-trip -/

/-- C6: encoding `TriggerEffect::continuous(force=200)` gives an 11-byte
block whose byte 0 decodes back to `Continuous` via
`TriggerEffectMode::from_u8` and whose byte 2 is 200; and for the `Off`
mode every byte after the mode tag is zero, whatever the other fields. -/
theorem C6_trigger_roundtrip :
    (TriggerEffect.continuous 200).to_bytes.length = 11 ∧
    TriggerEffectMode.from_u8 (byte (TriggerEffect.continuous 200).to_bytes 0)
      = TriggerEffectMode.Continuous ∧
    byte (TriggerEffect.continuous 200).to_bytes 2 = 200 ∧
    (∀ e : TriggerEffect, e.mode = TriggerEffectMode.Off →
      ∀ i : Nat, 1 ≤ i → i ≤ 10 → byte e.to_bytes i = 0) := by
  refine ⟨by decide, by decide, by decide, ?_⟩
  intro e he i h1 h10
  rcases e with ⟨m, sp, ep, fo, fr⟩
  subst he
  interval_cases i <;> rfl

/-- C6, witness: the `Off` clause applied at a concrete effect with
nonzero parameter fields and byte index 5. -/
theorem C6_trigger_roundtrip_witness :
    byte (TriggerEffect.to_bytes
      { mode := .Off, start_position := 9, end_position := 9, force := 9,
        frequency := 9 }) 5 = 0 :=
  C6_trigger_roundtrip.2.2.2
    { mode := .Off, start_position := 9, end_position := 9, force := 9,
      frequency := 9 } rfl 5 (by decide) (by decide)

/-! ## Claim C9: deadzone boundary rescaling -/

/-- C9: for `0 < dz < 1`, inputs inside the band give exactly 0, the
band edge `v = dz` maps to 0, and full deflection `v = 1` maps to 1. -/
theorem C9_apply_deadzone (v dz : ℚ) (h0 : 0 < dz) (h1 : dz < 1) :
    (|v| < dz → apply_deadzone v dz = 0) ∧
    apply_deadzone dz dz = 0 ∧
    apply_deadzone 1 dz = 1 := by
  refine ⟨fun h => by simp [apply_deadzone, h], ?_, ?_⟩
  · have habs : |dz| = dz := abs_of_pos h0
    simp [apply_deadzone, habs, rclamp, rsignum, not_lt_of_le (le_refl dz)]
  · have habs : |(1 : ℚ)| = 1 := by norm_num
    have hne : (1 : ℚ) - dz ≠ 0 := by linarith
    have hnlt : ¬ (1 : ℚ) < dz := by linarith
    simp [apply_deadzone, habs, hnlt, rclamp, rsignum, div_self hne]

/-- C9, witness: the theorem applied at `dz = 1/2` with the in-band
input `v = 1/20`. -/
theorem C9_apply_deadzone_witness :
    apply_deadzone (1/20) (1/2) = 0 ∧
    apply_deadzone (1/2) (1/2) = 0 ∧
    apply_deadzone 1 (1/2) = 1 :=
  ⟨(C9_apply_deadzone (1/20) (1/2) (by norm_num) (by norm_num)).1
     (by rw [abs_of_pos (by norm_num : (0:ℚ) < 1/20)]; norm_num),
   (C9_apply_deadzone (1/20) (1/2) (by norm_num) (by norm_num)).2.1,
   (C9_apply_deadzone (1/20) (1/2) (by norm_num) (by norm_num)).2.2⟩

/-! ## Claim C10: frame effect of set_mode -/

/-- C10: `SpatialState::set_mode` sets the mode, zeroes the velocity,
and leaves position, smoothed velocity, orientation, linear
acceleration, angular velocity, the AxiDraw force tag (and the config)
unchanged. -/
theorem C10_set_mode {Q : Type} (s : SpatialState Q) (m : SpatialMode) :
    (s.set_mode m).mode = m ∧
    (s.set_mode m).velocity = V3.zero ∧
    (s.set_mode m).position = s.position ∧
    (s.set_mode m).smoothed_velocity = s.smoothed_velocity ∧
    (s.set_mode m).orientation = s.orientation ∧
    (s.set_mode m).linear_accel = s.linear_accel ∧
    (s.set_mode m).angular_velocity = s.angular_velocity ∧
    (s.set_mode m).axidraw_force_type = s.axidraw_force_type ∧
    (s.set_mode m).config = s.config :=
  ⟨rfl, rfl, rfl, rfl, rfl, rfl, rfl, rfl, rfl⟩

/-! ## Claim C3: parser length contract -/

/-- C3: the report parsers fail with `InvalidReport` exactly on payloads
shorter than the transport minimum (63 bytes USB, 77 bytes Bluetooth),
and succeed with a `ControllerState` on every payload at least that
long. -/
theorem C3_parse_length_contract {Q : Type} (st : ControllerState Q)
    (data : List Nat) :
    (data.length < 63 →
      parse_usb_report st data = Except.error (DualSenseError.invalidReport
        ("USB report too short: " ++ toString data.length ++ " bytes"))) ∧
    (63 ≤ data.length → ∃ s, parse_usb_report st data = Except.ok s) ∧
    (data.length < 77 →
      parse_bt_report st data = Except.error (DualSenseError.invalidReport
        ("BT report too short: " ++ toString data.length ++ " bytes"))) ∧
    (77 ≤ data.length → ∃ s, parse_bt_report st data = Except.ok s) := by
  refine ⟨fun h => ?_, fun h => ?_, fun h => ?_, fun h => ?_⟩
  · simp [parse_usb_report, h]
  · exact ⟨parse_common_input st data 0,
      by simp [parse_usb_report, Nat.not_lt.mpr h]⟩
  · simp [parse_bt_report, h]
  · exact ⟨parse_common_input st data 1,
      by simp [parse_bt_report, Nat.not_lt.mpr h]⟩

/-- C3, witness: the contract applied at a 63-byte zero payload (USB
success), a 10-byte payload (USB failure), and a 77-byte zero payload
(Bluetooth success). -/
theorem C3_parse_length_contract_witness :
    (∃ s, parse_usb_report ({ orientation := () } : ControllerState Unit)
      (List.replicate 63 0) = Except.ok s) ∧
    parse_usb_report ({ orientation := () } : ControllerState Unit)
      (List.replicate 10 0) = Except.error (DualSenseError.invalidReport
        ("USB report too short: " ++ toString (List.replicate (α := Nat) 10 0).length ++ " bytes")) ∧
    (∃ s, parse_bt_report ({ orientation := () } : ControllerState Unit)
      (List.replicate 77 0) = Except.ok s) :=
  ⟨(C3_parse_length_contract _ _).2.1 (by simp),
   (C3_parse_length_contract _ _).1 (by simp),
   (C3_parse_length_contract _ _).2.2.2 (by simp)⟩

/-! ## Claim C5: parsed-state invariants -/

/-- Every byte a `byte` lookup returns on an all-under-256 list is
under 256 (out-of-range lookups return the default 0). -/
theorem byte_lt_256 {l : List Nat} (hb : ∀ b ∈ l, b < 256) (i : Nat) :
    byte l i < 256 := by
  unfold byte List.getD
  cases h : l.get? i with
  | none => simp
  | some a => simpa using hb a (List.get?_mem h)

/-- Touch-point decode bounds: 7-bit id, 12-bit coordinates. -/
theorem parse_touch_point_bounds {d : List Nat} (hb : ∀ b ∈ d, b < 256) :
    (parse_touch_point d).id ≤ 127 ∧
    (parse_touch_point d).x ≤ 4095 ∧
    (parse_touch_point d).y ≤ 4095 := by
  refine ⟨Nat.and_le_right, ?_, ?_⟩
  · have h1 : ((byte d 2 &&& 0x0F) <<< 8) < 2 ^ 12 := by
      have hle : byte d 2 &&& 0x0F ≤ 15 := Nat.and_le_right
      rw [Nat.shiftLeft_eq]
      calc (byte d 2 &&& 0x0F) * 2 ^ 8 ≤ 15 * 2 ^ 8 :=
            Nat.mul_le_mul_right _ hle
        _ < 2 ^ 12 := by norm_num
    have h2 : byte d 1 < 2 ^ 12 := lt_trans (byte_lt_256 hb 1) (by norm_num)
    have := Nat.or_lt_two_pow h1 h2
    simpa [parse_touch_point] using Nat.lt_succ_iff.mp (by simpa using this)
  · have h1 : (byte d 3 <<< 4) < 2 ^ 12 := by
      have hle : byte d 3 ≤ 255 := Nat.lt_succ_iff.mp (byte_lt_256 hb 3)
      rw [Nat.shiftLeft_eq]
      calc byte d 3 * 2 ^ 4 ≤ 255 * 2 ^ 4 := Nat.mul_le_mul_right _ hle
        _ < 2 ^ 12 := by norm_num
    have h2 : ((byte d 2 &&& 0xF0) >>> 4) < 2 ^ 12 := by
      have hle : byte d 2 &&& 0xF0 ≤ 240 := Nat.and_le_right
      rw [Nat.shiftRight_eq_div_pow]
      exact lt_of_le_of_lt (Nat.div_le_div_right hle) (by norm_num)
    have := Nat.or_lt_two_pow h1 h2
    simpa [parse_touch_point] using Nat.lt_succ_iff.mp (by simpa using this)

/-- C5, counterexample: the claim bounds the battery level by 10, but the
parser keeps the whole low nibble of the battery byte; a 63-byte USB
payload whose byte 52 is `0x0B` parses successfully to battery level 11. -/
theorem C5_battery_level_counterexample :
    Except.map (fun s : ControllerState Unit => s.battery.level)
      (parse_usb_report { orientation := () }
        (List.replicate 52 0 ++ 11 :: List.replicate 10 0)) = Except.ok 11 := by
  rfl

/-- The touchpad field of `parse_common_input` when the payload is long
enough for the touch block. -/
theorem parse_common_input_touchpad {Q : Type} (st : ControllerState Q)
    (data : List Nat) (offset : Nat) (h : (data.drop offset).length > 40) :
    (parse_common_input st data offset).touchpad =
      { finger1 := parse_touch_point (((data.drop offset).drop 32).take 4)
        finger2 := parse_touch_point (((data.drop offset).drop 36).take 4) } := by
  dsimp only [parse_common_input]
  rw [if_pos h]

/-- The battery field of `parse_common_input` when the payload is long
enough for the battery byte. -/
theorem parse_common_input_battery {Q : Type} (st : ControllerState Q)
    (data : List Nat) (offset : Nat) (h : (data.drop offset).length > 52) :
    (parse_common_input st data offset).battery =
      { level := byte (data.drop offset) 52 &&& 0x0F
        charging := byte (data.drop offset) 52 &&& 0x10 != 0
        fully_charged := byte (data.drop offset) 52 &&& 0x20 != 0 } := by
  dsimp only [parse_common_input]
  rw [if_pos h]

/-- C5 (amended): every state produced by a successful parse has touch
finger ids in 0-127 and touch coordinates in 0-4095, battery level in
0-15 (the full low nibble of the battery byte — not 0-10 as claimed),
and charging / fully-charged equal to bits 4 and 5 of the battery byte. -/
theorem C5_parse_state_invariants {Q : Type} (st : ControllerState Q)
    (data : List Nat) (hb : ∀ b ∈ data, b < 256) (s : ControllerState Q) :
    (parse_usb_report st data = Except.ok s →
      s.touchpad.finger1.id ≤ 127 ∧ s.touchpad.finger2.id ≤ 127 ∧
      s.touchpad.finger1.x ≤ 4095 ∧ s.touchpad.finger1.y ≤ 4095 ∧
      s.touchpad.finger2.x ≤ 4095 ∧ s.touchpad.finger2.y ≤ 4095 ∧
      s.battery.level ≤ 15 ∧
      s.battery.charging = (byte data 52 &&& 0x10 != 0) ∧
      s.battery.fully_charged = (byte data 52 &&& 0x20 != 0)) ∧
    (parse_bt_report st data = Except.ok s →
      s.touchpad.finger1.id ≤ 127 ∧ s.touchpad.finger2.id ≤ 127 ∧
      s.touchpad.finger1.x ≤ 4095 ∧ s.touchpad.finger1.y ≤ 4095 ∧
      s.touchpad.finger2.x ≤ 4095 ∧ s.touchpad.finger2.y ≤ 4095 ∧
      s.battery.level ≤ 15 ∧
      s.battery.charging = (byte (data.drop 1) 52 &&& 0x10 != 0) ∧
      s.battery.fully_charged = (byte (data.drop 1) 52 &&& 0x20 != 0)) := by
  constructor
  · intro h
    unfold parse_usb_report at h
    split at h
    · exact absurd h (by simp)
    · next hlen =>
      have hlen63 : 63 ≤ data.length := Nat.not_lt.mp hlen
      rw [Except.ok.injEq] at h
      subst h
      have hlen40 : (data.drop 0).length > 40 := by
        rw [List.drop_zero]; omega
      have hlen52 : (data.drop 0).length > 52 := by
        rw [List.drop_zero]; omega
      have hb1 : ∀ b ∈ ((data.drop 0).drop 32).take 4, b < 256 := fun b m =>
        hb b (List.mem_of_mem_drop (List.mem_of_mem_drop (List.mem_of_mem_take m)))
      have hb2 : ∀ b ∈ ((data.drop 0).drop 36).take 4, b < 256 := fun b m =>
        hb b (List.mem_of_mem_drop (List.mem_of_mem_drop (List.mem_of_mem_take m)))
      have t1 := parse_touch_point_bounds hb1
      have t2 := parse_touch_point_bounds hb2
      rw [parse_common_input_touchpad st data 0 hlen40,
          parse_common_input_battery st data 0 hlen52]
      exact ⟨t1.1, t2.1, t1.2.1, t1.2.2, t2.2.1, t2.2.2,
             Nat.and_le_right, rfl, rfl⟩
  · intro h
    unfold parse_bt_report at h
    split at h
    · exact absurd h (by simp)
    · next hlen =>
      have hlen77 : 77 ≤ data.length := Nat.not_lt.mp hlen
      rw [Except.ok.injEq] at h
      subst h
      have hlen40 : (data.drop 1).length > 40 := by
        rw [List.length_drop]; omega
      have hlen52 : (data.drop 1).length > 52 := by
        rw [List.length_drop]; omega
      have hb1 : ∀ b ∈ ((data.drop 1).drop 32).take 4, b < 256 := fun b m =>
        hb b (List.mem_of_mem_drop (List.mem_of_mem_drop (List.mem_of_mem_take m)))
      have hb2 : ∀ b ∈ ((data.drop 1).drop 36).take 4, b < 256 := fun b m =>
        hb b (List.mem_of_mem_drop (List.mem_of_mem_drop (List.mem_of_mem_take m)))
      have t1 := parse_touch_point_bounds hb1
      have t2 := parse_touch_point_bounds hb2
      rw [parse_common_input_touchpad st data 1 hlen40,
          parse_common_input_battery st data 1 hlen52]
      exact ⟨t1.1, t2.1, t1.2.1, t1.2.2, t2.2.1, t2.2.2,
             Nat.and_le_right, rfl, rfl⟩

/-- C5, witness: the amended invariants applied to the all-zero 63-byte
USB payload. -/
theorem C5_parse_state_invariants_witness :
    (parse_usb_report ({ orientation := () } : ControllerState Unit)
        (List.replicate 63 0) =
      Except.ok (parse_common_input { orientation := () } (List.replicate 63 0) 0)) ∧
    (parse_common_input ({ orientation := () } : ControllerState Unit)
        (List.replicate 63 0) 0).battery.level ≤ 15 :=
  ⟨by rfl,
   ((C5_parse_state_invariants { orientation := () } (List.replicate 63 0)
      (fun b m => by simpa using (List.eq_of_mem_replicate m) ▸ (by norm_num : (0:Nat) < 256))
      _).1 (by rfl)).2.2.2.2.2.2.1⟩

/-! ## Claim C1: Bluetooth output frame -/

/-- Every trigger-effect block is 11 bytes. -/
theorem TriggerEffect.to_bytes_length (e : TriggerEffect) :
    e.to_bytes.length = 11 := by
  rcases e with ⟨m, sp, ep, fo, fr⟩
  cases m <;> rfl

/-- The Bluetooth output body (everything before the CRC suffix) is
74 bytes. -/
theorem bt_output_body_length (o : OutputState) :
    (bt_output_body o).length = 74 := by
  simp [bt_output_body, TriggerEffect.to_bytes_length]

/-- C1: every Bluetooth output-report send produces a 78-byte frame
starting with report id `0x31`, whose byte 1 is `(seq <<< 4) ||| 0x02`
for the current 4-bit sequence counter `seq`, increments the counter
modulo 16, and ends with the little-endian CRC-32 of the first 74 bytes
hashed with `[0xA2, 0x31]` prepended. -/
theorem C1_bt_output_frame (o : OutputState) (h : o.bt_seq < 16) :
    (send_output_report_bt o).1.length = 78 ∧
    byte (send_output_report_bt o).1 0 = 0x31 ∧
    byte (send_output_report_bt o).1 1 = ((o.bt_seq <<< 4) ||| 0x02) ∧
    (send_output_report_bt o).2.bt_seq = (o.bt_seq + 1) % 16 ∧
    (send_output_report_bt o).1.drop 74 =
      u32_le (crc32 (0xA2 :: 0x31 :: (send_output_report_bt o).1.take 74)) := by
  have hlen : (bt_output_body o).length = 74 := bt_output_body_length o
  refine ⟨?_, rfl, ?_, ?_, ?_⟩
  · show ((bt_output_body o) ++ u32_le (compute_bt_crc32 (bt_output_body o))).length = 78
    simp [List.length_append, hlen, u32_le]
  · show ((o.bt_seq <<< 4) % 256) ||| 0x02 = (o.bt_seq <<< 4) ||| 0x02
    congr 1
    refine Nat.mod_eq_of_lt ?_
    rw [Nat.shiftLeft_eq]
    norm_num
    omega
  · show ((o.bt_seq + 1) % 256) &&& 0x0F = (o.bt_seq + 1) % 16
    rw [Nat.mod_eq_of_lt (by omega : o.bt_seq + 1 < 256)]
    have := Nat.and_pow_two_sub_one_eq_mod (o.bt_seq + 1) 4
    norm_num at this
    exact this
  · show ((bt_output_body o) ++ u32_le (compute_bt_crc32 (bt_output_body o))).drop 74 =
      u32_le (crc32 (0xA2 :: 0x31 ::
        ((bt_output_body o) ++ u32_le (compute_bt_crc32 (bt_output_body o))).take 74))
    rw [List.drop_left' hlen, List.take_left' hlen]
    rfl

/-- C1, witness: the frame theorem applied to the default output state
(sequence counter 0). -/
theorem C1_bt_output_frame_witness :
    (send_output_report_bt OutputState.default).1.length = 78 ∧
    byte (send_output_report_bt OutputState.default).1 0 = 0x31 ∧
    byte (send_output_report_bt OutputState.default).1 1
      = ((OutputState.default.bt_seq <<< 4) ||| 0x02) ∧
    (send_output_report_bt OutputState.default).2.bt_seq
      = (OutputState.default.bt_seq + 1) % 16 ∧
    (send_output_report_bt OutputState.default).1.drop 74 =
      u32_le (crc32 (0xA2 :: 0x31 ::
        (send_output_report_bt OutputState.default).1.take 74)) :=
  C1_bt_output_frame OutputState.default (by decide)

/-! ## Claim C2: poll skip-frame behaviour -/

/-- C2, counterexample: the claim says a skipped frame (here a 10-byte
USB read with report id 5) leaves the decoded state *including its
previous-state snapshot* unchanged, but `poll` unconditionally
overwrites `prev_state` with the current state before inspecting the
frame: starting from `prev_state.left_stick.x = 128` and
`state.left_stick.x = 7`, after the skipped frame the snapshot reads 7. -/
theorem C2_poll_skip_counterexample :
    Except.map (fun d : DualSenseSt Unit => d.prev_state.left_stick.x)
      (poll (fun q _ _ _ => q)
        { connection_type := .Usb
          state := { left_stick := { x := 7, y := 128 }, orientation := () }
          prev_state := { orientation := () }
          filter_q := () }
        [5] 10 2) = Except.ok 7 ∧
    ({ orientation := () } : ControllerState Unit).left_stick.x = 128 := by
  constructor <;> rfl

/-- C2 (amended): on a frame whose report id or length does not match
the transport, `poll` returns success with all parsed input fields
unchanged, but it overwrites the previous-state snapshot with the
current state, and it still advances the derived orientation (and the
filter quaternion) through the fusion step whenever `0 < dt < 1`. -/
theorem C2_poll_skip {Q : Type} (fupd : Q → V3 → V3 → ℚ → Q)
    (ds : DualSenseSt Q) (buf : List Nat) (bytes_read : Nat) (dt : ℚ)
    (hnz : bytes_read ≠ 0)
    (hskip :
      (ds.connection_type = ConnectionType.Usb →
        ¬(USB_REPORT_SIZE ≤ bytes_read ∧ byte buf 0 = USB_INPUT_REPORT_ID)) ∧
      (ds.connection_type = ConnectionType.Bluetooth →
        ¬(BT_REPORT_SIZE ≤ bytes_read ∧ byte buf 0 = BT_INPUT_REPORT_ID))) :
    poll fupd ds buf bytes_read dt =
      Except.ok
        { ds with
          state :=
            { ds.state with
              orientation :=
                if 0 < dt ∧ dt < 1 then
                  fupd ds.filter_q ds.state.gyroscope.to_rad_per_sec
                    ds.state.accelerometer.to_g dt
                else ds.state.orientation }
          prev_state := ds.state
          filter_q :=
            if 0 < dt ∧ dt < 1 then
              fupd ds.filter_q ds.state.gyroscope.to_rad_per_sec
                ds.state.accelerometer.to_g dt
            else ds.filter_q } := by
  obtain ⟨ct, st, prev, fq⟩ := ds
  unfold poll
  rw [if_neg hnz]
  cases ct
  case Usb =>
    have hc := hskip.1 rfl
    by_cases hdt : 0 < dt ∧ dt < 1 <;>
      simp [hc, hdt]
  case Bluetooth =>
    have hc := hskip.2 rfl
    by_cases hdt : 0 < dt ∧ dt < 1 <;>
      simp [hc, hdt]

/-- C2, witness: the amended theorem applied to a concrete Bluetooth
connection with a wrong-id frame and a stale `dt` of 2 seconds. -/
theorem C2_poll_skip_witness :
    poll (fun q _ _ _ => q)
      ({ connection_type := .Bluetooth
         state := { orientation := () }
         prev_state := { orientation := () }
         filter_q := () } : DualSenseSt Unit)
      [1] 78 2 =
      Except.ok
        { ({ connection_type := .Bluetooth
             state := { orientation := () }
             prev_state := { orientation := () }
             filter_q := () } : DualSenseSt Unit) with
          state :=
            { ({ orientation := () } : ControllerState Unit) with
              orientation :=
                if (0:ℚ) < 2 ∧ (2:ℚ) < 1 then
                  (fun (q : Unit) (_ _ : V3) (_ : ℚ) => q) ()
                    ({ orientation := () } : ControllerState Unit).gyroscope.to_rad_per_sec
                    ({ orientation := () } : ControllerState Unit).accelerometer.to_g 2
                else () }
          prev_state := { orientation := () }
          filter_q :=
            if (0:ℚ) < 2 ∧ (2:ℚ) < 1 then
              (fun (q : Unit) (_ _ : V3) (_ : ℚ) => q) ()
                ({ orientation := () } : ControllerState Unit).gyroscope.to_rad_per_sec
                ({ orientation := () } : ControllerState Unit).accelerometer.to_g 2
            else () } :=
  C2_poll_skip (fun q _ _ _ => q) _ [1] 78 2 (by decide)
    ⟨(fun h => nomatch h), (fun _ => by decide)⟩

/-! ## Claim C7: velocity decay under sustained zero input -/

/-- Zero input stays zero through the deadzone (for any nonnegative
deadzone). -/
theorem apply_deadzone_zero {dz : ℚ} (h : 0 ≤ dz) : apply_deadzone 0 dz = 0 := by
  unfold apply_deadzone
  rcases eq_or_lt_of_le h with he | hlt
  · rw [← he]
    norm_num [rclamp, rsignum]
  · simp [abs_zero, hlt]

/-- A centred stick normalises to exactly `(0, 0)`. -/
theorem stick_center_normalized :
    Stick.normalized { x := 128, y := 128 } = (0, 0) := by
  norm_num [Stick.normalized, rclamp]

/-- Released triggers normalise to exactly `(0, 0)`. -/
theorem triggers_zero_normalized :
    Triggers.normalized { l2 := 0, r2 := 0 } = (0, 0) := by
  norm_num [Triggers.normalized]

/-- Damping with snap-to-zero shrinks a value by at least the damping
factor. -/
theorem damp_snap_le (d u : ℚ) (hd : 0 ≤ d) : |damp_snap d u| ≤ |u| * d := by
  have hds : damp_snap d u = if |u * d| < 1/10 then 0 else u * d := rfl
  rw [hds]
  split
  · simpa using mul_nonneg (abs_nonneg u) hd
  · rw [abs_mul, abs_of_nonneg hd]

/-- One `integrate` tick under sustained zero stick/trigger input in the
four stick-driven modes: the mode and config are untouched and each
velocity component becomes `damp_snap damping (v * (1 - alpha))` —
smoothing toward the zero target, then damping with snap-to-zero
(the target is negligible in all three axes). -/
theorem integrate_zero_step {Q Q2 : Type} (ops : FilterOps Q)
    (s : SpatialState Q) (cs : ControllerState Q2) (dt : ℚ)
    (hls : cs.left_stick = { x := 128, y := 128 })
    (hrs : cs.right_stick = { x := 128, y := 128 })
    (htr : cs.triggers = { l2 := 0, r2 := 0 })
    (hopt : cs.buttons.options = false)
    (hdz : 0 ≤ s.config.deadzone)
    (hmode : s.mode = SpatialMode.Standard ∨ s.mode = SpatialMode.Heading ∨
             s.mode = SpatialMode.AxiDraw ∨ s.mode = SpatialMode.ThreeD) :
    (s.integrate ops cs dt).mode = s.mode ∧
    (s.integrate ops cs dt).config = s.config ∧
    (s.integrate ops cs dt).velocity =
      ⟨damp_snap s.config.linear_damping
         (s.velocity.x * (1 - s.config.smoothing_alpha)),
       damp_snap s.config.linear_damping
         (s.velocity.y * (1 - s.config.smoothing_alpha)),
       damp_snap s.config.linear_damping
         (s.velocity.z * (1 - s.config.smoothing_alpha))⟩ := by
  have hdz0 : apply_deadzone 0 s.config.deadzone = 0 := apply_deadzone_zero hdz
  have h110 : ¬ ((1 : ℚ)/10 < 0) := by norm_num
  rcases hmode with hm | hm | hm | hm <;>
    simp [SpatialState.integrate, SpatialState.update_velocity_and_position,
          hls, hrs, htr, hopt, hm, stick_center_normalized,
          triggers_zero_normalized, hdz0, h110]

/-- C7: with zero stick and trigger input sustained across `integrate`
ticks at fixed positive `dt`, in the Standard, Heading, AxiDraw and
ThreeD modes, with smoothing alpha in `[0, 1]` and linear damping in
`[0, 1)`, each velocity component magnitude is monotonically
non-increasing and bounded by the geometric decay
`((1 - alpha) * damping)^n`, so it decays toward 0. -/
theorem C7_zero_input_velocity_decay {Q Q2 : Type} (ops : FilterOps Q)
    (s : SpatialState Q) (cs : ControllerState Q2) (dt : ℚ)
    (hls : cs.left_stick = { x := 128, y := 128 })
    (hrs : cs.right_stick = { x := 128, y := 128 })
    (htr : cs.triggers = { l2 := 0, r2 := 0 })
    (hopt : cs.buttons.options = false)
    (hdt : 0 < dt)
    (hdz : 0 ≤ s.config.deadzone)
    (ha0 : 0 ≤ s.config.smoothing_alpha) (ha1 : s.config.smoothing_alpha ≤ 1)
    (hd0 : 0 ≤ s.config.linear_damping) (hd1 : s.config.linear_damping < 1)
    (hmode : s.mode = SpatialMode.Standard ∨ s.mode = SpatialMode.Heading ∨
             s.mode = SpatialMode.AxiDraw ∨ s.mode = SpatialMode.ThreeD) :
    ∀ n : ℕ,
      (|((fun st : SpatialState Q => st.integrate ops cs dt)^[n+1] s).velocity.x|
         ≤ |((fun st : SpatialState Q => st.integrate ops cs dt)^[n] s).velocity.x| ∧
       |((fun st : SpatialState Q => st.integrate ops cs dt)^[n+1] s).velocity.y|
         ≤ |((fun st : SpatialState Q => st.integrate ops cs dt)^[n] s).velocity.y| ∧
       |((fun st : SpatialState Q => st.integrate ops cs dt)^[n+1] s).velocity.z|
         ≤ |((fun st : SpatialState Q => st.integrate ops cs dt)^[n] s).velocity.z|) ∧
      (|((fun st : SpatialState Q => st.integrate ops cs dt)^[n] s).velocity.x|
         ≤ ((1 - s.config.smoothing_alpha) * s.config.linear_damping)^n * |s.velocity.x| ∧
       |((fun st : SpatialState Q => st.integrate ops cs dt)^[n] s).velocity.y|
         ≤ ((1 - s.config.smoothing_alpha) * s.config.linear_damping)^n * |s.velocity.y| ∧
       |((fun st : SpatialState Q => st.integrate ops cs dt)^[n] s).velocity.z|
         ≤ ((1 - s.config.smoothing_alpha) * s.config.linear_damping)^n * |s.velocity.z|) := by
  set F := fun st : SpatialState Q => st.integrate ops cs dt with hF
  set c : ℚ := (1 - s.config.smoothing_alpha) * s.config.linear_damping with hc
  have hc0 : 0 ≤ c := mul_nonneg (by linarith) hd0
  have hc1 : c ≤ 1 := by
    have h1a : 1 - s.config.smoothing_alpha ≤ 1 := by linarith
    have := mul_le_one₀ h1a hd0 (le_of_lt hd1)
    simpa [hc] using this
  have h1a : (0:ℚ) ≤ 1 - s.config.smoothing_alpha := by linarith
  -- the iterates keep the mode and the config
  have inv : ∀ n, (F^[n] s).mode = s.mode ∧ (F^[n] s).config = s.config := by
    intro n
    induction n with
    | zero => exact ⟨rfl, rfl⟩
    | succ k ih =>
        have step := integrate_zero_step ops (F^[k] s) cs dt hls hrs htr hopt
          (by rw [ih.2]; exact hdz) (by rw [ih.1]; exact hmode)
        rw [Function.iterate_succ_apply']
        exact ⟨step.1.trans ih.1, step.2.1.trans ih.2⟩
  -- the iterates step each velocity component through smoothing + damping
  have vstep : ∀ n, (F^[n+1] s).velocity =
      ⟨damp_snap s.config.linear_damping
         ((F^[n] s).velocity.x * (1 - s.config.smoothing_alpha)),
       damp_snap s.config.linear_damping
         ((F^[n] s).velocity.y * (1 - s.config.smoothing_alpha)),
       damp_snap s.config.linear_damping
         ((F^[n] s).velocity.z * (1 - s.config.smoothing_alpha))⟩ := by
    intro n
    have step := integrate_zero_step ops (F^[n] s) cs dt hls hrs htr hopt
      (by rw [(inv n).2]; exact hdz) (by rw [(inv n).1]; exact hmode)
    rw [Function.iterate_succ_apply']
    have h2 := step.2.2
    rw [(inv n).2] at h2
    exact h2
  -- one-step contraction of each component
  have key : ∀ vk : ℚ,
      |damp_snap s.config.linear_damping (vk * (1 - s.config.smoothing_alpha))|
        ≤ |vk| * c := by
    intro vk
    calc |damp_snap s.config.linear_damping
            (vk * (1 - s.config.smoothing_alpha))|
        ≤ |vk * (1 - s.config.smoothing_alpha)| * s.config.linear_damping :=
          damp_snap_le _ _ hd0
      _ = |vk| * c := by
          rw [abs_mul, abs_of_nonneg h1a, hc]; ring
  have keymono : ∀ vk : ℚ,
      |damp_snap s.config.linear_damping (vk * (1 - s.config.smoothing_alpha))|
        ≤ |vk| := by
    intro vk
    calc |damp_snap s.config.linear_damping
            (vk * (1 - s.config.smoothing_alpha))|
        ≤ |vk| * c := key vk
      _ ≤ |vk| * 1 := mul_le_mul_of_nonneg_left hc1 (abs_nonneg vk)
      _ = |vk| := mul_one _
  have bound : ∀ n,
      |(F^[n] s).velocity.x| ≤ c^n * |s.velocity.x| ∧
      |(F^[n] s).velocity.y| ≤ c^n * |s.velocity.y| ∧
      |(F^[n] s).velocity.z| ≤ c^n * |s.velocity.z| := by
    intro n
    induction n with
    | zero => simp
    | succ k ih =>
        have keystep : ∀ vk v0 : ℚ, |vk| ≤ c^k * |v0| →
            |damp_snap s.config.linear_damping
               (vk * (1 - s.config.smoothing_alpha))| ≤ c^(k+1) * |v0| := by
          intro vk v0 hk
          calc |damp_snap s.config.linear_damping
                  (vk * (1 - s.config.smoothing_alpha))|
              ≤ |vk| * c := key vk
            _ ≤ (c^k * |v0|) * c := mul_le_mul_of_nonneg_right hk hc0
            _ = c^(k+1) * |v0| := by ring
        rw [vstep k]
        exact ⟨keystep _ _ ih.1, keystep _ _ ih.2.1, keystep _ _ ih.2.2⟩
  intro n
  refine ⟨?_, bound n⟩
  rw [vstep n]
  exact ⟨keymono _, keymono _, keymono _⟩

/-- C7, witness: the decay theorem applied to a Standard-mode state with
initial velocity `(5, 0, 0)`, the default integration config, the idle
controller state, `dt = 1/100` and `n = 2` (x-component clauses). -/
theorem C7_zero_input_velocity_decay_witness :
    |((fun st : SpatialState Unit =>
        st.integrate trivial_filter_ops idle_controller_state (1/100))^[3]
        sample_spatial_state).velocity.x|
      ≤ |((fun st : SpatialState Unit =>
        st.integrate trivial_filter_ops idle_controller_state (1/100))^[2]
        sample_spatial_state).velocity.x| ∧
    |((fun st : SpatialState Unit =>
        st.integrate trivial_filter_ops idle_controller_state (1/100))^[2]
        sample_spatial_state).velocity.x|
      ≤ ((1 - sample_spatial_state.config.smoothing_alpha) *
          sample_spatial_state.config.linear_damping)^2 *
        |sample_spatial_state.velocity.x| :=
  ⟨(C7_zero_input_velocity_decay trivial_filter_ops sample_spatial_state
      idle_controller_state (1/100) rfl rfl rfl rfl (by norm_num)
      (by norm_num [sample_spatial_state, default_integration_config])
      (by norm_num [sample_spatial_state, default_integration_config])
      (by norm_num [sample_spatial_state, default_integration_config])
      (by norm_num [sample_spatial_state, default_integration_config])
      (by norm_num [sample_spatial_state, default_integration_config])
      (Or.inl rfl) 2).1.1,
   (C7_zero_input_velocity_decay trivial_filter_ops sample_spatial_state
      idle_controller_state (1/100) rfl rfl rfl rfl (by norm_num)
      (by norm_num [sample_spatial_state, default_integration_config])
      (by norm_num [sample_spatial_state, default_integration_config])
      (by norm_num [sample_spatial_state, default_integration_config])
      (by norm_num [sample_spatial_state, default_integration_config])
      (by norm_num [sample_spatial_state, default_integration_config])
      (Or.inl rfl) 2).2.1⟩

/-! ## Claim C8: Madgwick filter preserves identity and unit norm -/

/-- The quaternion norm is the square root of the component sum of
squares (matching the explicit `grad_norm` computation in the source). -/
theorem qnorm_eq_sqrt (a : Quaternion ℝ) :
    ‖a‖ = Real.sqrt (a.re ^ 2 + a.imI ^ 2 + a.imJ ^ 2 + a.imK ^ 2) := by
  rw [← Quaternion.normSq_def', Quaternion.normSq_eq_norm_mul_self,
      Real.sqrt_mul_self (norm_nonneg a)]

/-- Renormalising a nonzero quaternion yields a unit quaternion. -/
theorem qnormalize_unit {v : Quaternion ℝ} (hv : v ≠ 0) :
    ‖qnormalize v‖ = 1 := by
  unfold qnormalize
  rw [norm_smul, Real.norm_eq_abs,
      abs_of_nonneg (inv_nonneg.mpr (norm_nonneg v))]
  exact inv_mul_cancel₀ (norm_ne_zero_iff.mpr hv)

/-- The Euler–gyro half of the update is multiplication by
`1 + s • gyro_quat` (quaternion algebra rearrangement of the
componentwise source formulas). -/
theorem madgwick_qdot_factor (q : Quaternion ℝ) (g : ℝ × ℝ × ℝ) (dt : ℝ) :
    q + dt • madgwick_qdot q g = q * (1 + (dt * (1/2)) • gyro_quat g) := by
  show q + dt • ((1/2 : ℝ) • (q * gyro_quat g))
      = q * (1 + (dt * (1/2)) • gyro_quat g)
  rw [mul_one_add, mul_smul_comm, smul_smul]

/-- `1 + s • p` has norm at least 1 whenever `p` is a pure quaternion. -/
theorem one_add_smul_pure_norm_ge (s : ℝ) (g : ℝ × ℝ × ℝ) :
    1 ≤ ‖1 + s • gyro_quat g‖ := by
  set x : Quaternion ℝ := 1 + s • gyro_quat g with hx
  have hsq : Quaternion.normSq x = ‖x‖ * ‖x‖ :=
    Quaternion.normSq_eq_norm_mul_self x
  have hcomp : Quaternion.normSq x =
      1 + (s * g.1) ^ 2 + (s * g.2.1) ^ 2 + (s * g.2.2) ^ 2 := by
    rw [Quaternion.normSq_def', hx]
    simp [gyro_quat]
    try ring
  nlinarith [norm_nonneg x, sq_nonneg (s * g.1), sq_nonneg (s * g.2.1),
    sq_nonneg (s * g.2.2)]

/-- The normalised gradient never has norm above 1. -/
theorem madgwick_gradhat_norm_le (q : Quaternion ℝ) (ax ay az : ℝ) :
    ‖madgwick_gradhat q ax ay az‖ ≤ 1 := by
  have hdef : madgwick_gradhat q ax ay az =
      (if 0 < Real.sqrt ((madgwick_grad q ax ay az).re ^ 2 +
          (madgwick_grad q ax ay az).imI ^ 2 +
          (madgwick_grad q ax ay az).imJ ^ 2 +
          (madgwick_grad q ax ay az).imK ^ 2) then
        (Real.sqrt ((madgwick_grad q ax ay az).re ^ 2 +
          (madgwick_grad q ax ay az).imI ^ 2 +
          (madgwick_grad q ax ay az).imJ ^ 2 +
          (madgwick_grad q ax ay az).imK ^ 2))⁻¹ • madgwick_grad q ax ay az
      else 0) := rfl
  rw [hdef, ← qnorm_eq_sqrt]
  split
  · next h =>
      rw [norm_smul, Real.norm_eq_abs,
          abs_of_nonneg (inv_nonneg.mpr (norm_nonneg (madgwick_grad q ax ay az)))]
      rw [inv_mul_cancel₀ (ne_of_gt h)]
  · simp

/-- The branch structure of `madgwick_update`, with the `let` bindings
expanded (definitional equality). -/
theorem madgwick_update_def (beta : ℝ) (q : Quaternion ℝ) (g a : ℝ × ℝ × ℝ)
    (dt : ℝ) :
    madgwick_update beta q g a dt =
      if Real.sqrt (a.1 ^ 2 + a.2.1 ^ 2 + a.2.2 ^ 2) < 1/100 then
        qnormalize (q + dt • madgwick_qdot q g)
      else
        qnormalize (q + dt • madgwick_qdot q g - (beta * dt) •
          madgwick_gradhat q
            (a.1 / Real.sqrt (a.1 ^ 2 + a.2.1 ^ 2 + a.2.2 ^ 2))
            (a.2.1 / Real.sqrt (a.1 ^ 2 + a.2.1 ^ 2 + a.2.2 ^ 2))
            (a.2.2 / Real.sqrt (a.1 ^ 2 + a.2.1 ^ 2 + a.2.2 ^ 2))) := rfl

/-- One update keeps the quaternion at unit norm, provided the
gradient-descent pull `beta * dt` stays under 1 (with `beta = 0.1` and
the connection state machine guard `dt < 1`, always the case in this
program). -/
theorem madgwick_update_unit (beta : ℝ) (q : Quaternion ℝ) (g a : ℝ × ℝ × ℝ)
    (dt : ℝ) (hq : ‖q‖ = 1) (hb : 0 ≤ beta) (hdt0 : 0 ≤ dt)
    (hbd : beta * dt < 1) : ‖madgwick_update beta q g a dt‖ = 1 := by
  have hgyro : 1 ≤ ‖q + dt • madgwick_qdot q g‖ := by
    rw [madgwick_qdot_factor, norm_mul, hq, one_mul]
    exact one_add_smul_pure_norm_ge _ _
  rw [madgwick_update_def]
  split
  · exact qnormalize_unit (norm_pos_iff.mp (by linarith))
  · apply qnormalize_unit
    apply norm_pos_iff.mp
    have hcorr : ‖(beta * dt) •
        madgwick_gradhat q (a.1 / Real.sqrt (a.1 ^ 2 + a.2.1 ^ 2 + a.2.2 ^ 2))
          (a.2.1 / Real.sqrt (a.1 ^ 2 + a.2.1 ^ 2 + a.2.2 ^ 2))
          (a.2.2 / Real.sqrt (a.1 ^ 2 + a.2.1 ^ 2 + a.2.2 ^ 2))‖
        ≤ beta * dt := by
      rw [norm_smul, Real.norm_eq_abs,
          abs_of_nonneg (mul_nonneg hb hdt0)]
      calc beta * dt * ‖madgwick_gradhat q _ _ _‖ ≤ beta * dt * 1 :=
            mul_le_mul_of_nonneg_left (madgwick_gradhat_norm_le q _ _ _)
              (mul_nonneg hb hdt0)
        _ = beta * dt := mul_one _
    calc (0:ℝ) < 1 - beta * dt := by linarith
      _ ≤ ‖q + dt • madgwick_qdot q g‖ - ‖(beta * dt) •
            madgwick_gradhat q
              (a.1 / Real.sqrt (a.1 ^ 2 + a.2.1 ^ 2 + a.2.2 ^ 2))
              (a.2.1 / Real.sqrt (a.1 ^ 2 + a.2.1 ^ 2 + a.2.2 ^ 2))
              (a.2.2 / Real.sqrt (a.1 ^ 2 + a.2.1 ^ 2 + a.2.2 ^ 2))‖ := by
          linarith [hcorr, hgyro]
      _ ≤ ‖q + dt • madgwick_qdot q g - (beta * dt) •
            madgwick_gradhat q
              (a.1 / Real.sqrt (a.1 ^ 2 + a.2.1 ^ 2 + a.2.2 ^ 2))
              (a.2.1 / Real.sqrt (a.1 ^ 2 + a.2.1 ^ 2 + a.2.2 ^ 2))
              (a.2.2 / Real.sqrt (a.1 ^ 2 + a.2.1 ^ 2 + a.2.2 ^ 2))‖ :=
          norm_sub_norm_le _ _

/-- At the identity quaternion with zero gyro and unit gravity on Z, one
update is the identity again (all exact over `ℝ`). -/
theorem madgwick_update_identity_fix (beta dt : ℝ) :
    madgwick_update beta 1 (0, 0, 0) (0, 0, 1) dt = 1 := by
  have h0 : (⟨(0:ℝ), 0, 0, 0⟩ : Quaternion ℝ) = 0 :=
    QuaternionAlgebra.ext rfl rfl rfl rfl
  have hqdot : madgwick_qdot 1 (0 : ℝ × ℝ × ℝ) = 0 := by
    simp [madgwick_qdot, h0]
  have hgrad : madgwick_grad 1 0 0 1 = 0 := by
    apply QuaternionAlgebra.ext <;> simp [madgwick_grad]
  have hghat : madgwick_gradhat 1 0 0 1 = 0 := by
    simp [madgwick_gradhat, hgrad]
  have ha : Real.sqrt ((0:ℝ) ^ 2 + (0:ℝ) ^ 2 + (1:ℝ) ^ 2) = 1 := by
    norm_num
  have hnlt : ¬ ((1:ℝ) < 1/100) := by norm_num
  simp [madgwick_update, ha, hnlt, hqdot, hghat, qnormalize]

/-- C8: starting from the identity, repeated updates with zero gyro,
unit gravity `(0,0,1)` and any positive `dt` leave the quaternion at
the identity exactly; and every update under the program's
configuration (`beta = 0.1`, poll guard `0 < dt < 1`) returns a unit
quaternion for arbitrary inputs. -/
theorem C8_madgwick_identity_and_unit (dt : ℝ) (hdt : 0 < dt) :
    (∀ n : ℕ, madgwick_iterate (1/10) (0, 0, 0) (0, 0, 1) dt n = 1) ∧
    (∀ (q : Quaternion ℝ) (g a : ℝ × ℝ × ℝ) (dt2 : ℝ), ‖q‖ = 1 →
      0 < dt2 → dt2 < 1 → ‖madgwick_update (1/10) q g a dt2‖ = 1) := by
  constructor
  · intro n
    induction n with
    | zero => rfl
    | succ k ih =>
        show madgwick_update (1/10) (madgwick_iterate (1/10) (0,0,0) (0,0,1) dt k)
          (0,0,0) (0,0,1) dt = 1
        rw [ih, madgwick_update_identity_fix]
  · intro q g a dt2 hq h0 h1
    refine madgwick_update_unit (1/10) q g a dt2 hq (by norm_num)
      (le_of_lt h0) ?_
    nlinarith

/-- C8, witness: five iterated updates at `dt = 1/2` stay at the
identity, and a unit-norm update at the identity with zero
accelerometer input (exercising the gyro-only branch). -/
theorem C8_madgwick_witness :
    madgwick_iterate (1/10) (0, 0, 0) (0, 0, 1) (1/2) 5 = 1 ∧
    ‖madgwick_update (1/10) 1 ((0:ℝ), (0:ℝ), (0:ℝ)) ((0:ℝ), (0:ℝ), (0:ℝ))
        (1/2)‖ = 1 :=
  ⟨(C8_madgwick_identity_and_unit (1/2) (by norm_num)).1 5,
   (C8_madgwick_identity_and_unit (1/2) (by norm_num)).2 1 (0, 0, 0) (0, 0, 0)
     (1/2) norm_one (by norm_num) (by norm_num)⟩

end DS
